import Mathlib

/-!
Verification development for the Turing Smart Screen dashboard script
(`src/app.py`).  The script polls a Prometheus-style metrics backend and an
Opnsense router API and renders the values on a small USB display.

The embedding below models the pure computational content of the script:

* `get_prom_metric` / `get_prom_metric_from_query` (app.py lines 30-52):
  the metric fetcher.  A backend is modelled as a function from a query
  string to a `PromResponse`; Python exceptions are modelled by
  `Except PyError`.
* `network_speed` (app.py lines 62-93): the rate calculator over the
  Opnsense byte counters; the bitmath `Byte(...).Mib` conversion and the
  one-decimal fixed format are modelled exactly (bytes to mebibits is
  a multiplication by 8 and a division by 2^20; the format rounds half to
  even, as CPython does on these values).
* the `__main__` startup revision branching (lines 121-140) and the
  refresh loop / signal handling (lines 104-374) as explicit event traces.

Numeric strings are modelled as exact decimal rationals: every literal the
claims use (`"21.4"`, byte counters, nanosecond intervals) is exactly
representable, so rational arithmetic agrees with CPython float arithmetic
on all inputs that appear in the theorems below.
-/

/-- Python exceptions that the modelled code paths can raise.
`typeError` models `int + str` concatenation (app.py lines 41, 52, 93),
`valueError` models `float()` on a non-numeric string (line 36),
`zeroDivisionError` models float division by zero (lines 87-88). -/
inductive PyError where
  | typeError
  | valueError
  | zeroDivisionError
deriving DecidableEq

/-- One row of the backend JSON `data.result` array: the `value` field is a
pair `[timestamp, stringValue]`; the code reads `['value'][1]` (line 35). -/
structure PromRow where
  value : ℚ × String
deriving DecidableEq

/-- A backend HTTP response as the script consumes it: `status_code`,
`reason`, and the parsed JSON `data.result` array. -/
structure PromResponse where
  status_code : ℤ
  reason : String
  result : List PromRow
deriving DecidableEq

/-- Digit list to natural number, most significant digit first. -/
def digitsVal (l : List Char) : ℕ :=
  l.foldl (fun a c => a * 10 + (c.toNat - 48)) 0

/-- Model of Python `float()` on the plain decimal literals the backend
returns: optional sign, then digits with at most one point.  The value is
the exact rational denoted by the literal. -/
def parseFloat (s : String) : Option ℚ :=
  let signed : ℤ × List Char :=
    match s.toList with
    | '-' :: rest => (-1, rest)
    | '+' :: rest => (1, rest)
    | cs => (1, cs)
  match signed.2.splitOn '.' with
  | [ip] =>
      if !ip.isEmpty && ip.all Char.isDigit then
        some ((signed.1 : ℚ) * (digitsVal ip : ℚ))
      else none
  | [ip, fp] =>
      if (!ip.isEmpty || !fp.isEmpty) && ip.all Char.isDigit && fp.all Char.isDigit then
        some ((signed.1 : ℚ) * ((digitsVal ip : ℚ) + (digitsVal fp : ℚ) / (10 : ℚ) ^ fp.length))
      else none
  | _ => none

/-- Python `round(x)` (one argument): nearest integer, ties to even. -/
def pyRound (q : ℚ) : ℤ :=
  let f := Int.floor q
  if q - f < 1 / 2 then f
  else if q - f > 1 / 2 then f + 1
  else if f % 2 = 0 then f else f + 1

/-- The query string `get_prom_metric` actually sends (app.py line 31):
the metric expression wrapped in a one-hour `last_over_time` lookback. -/
def promQuery (metricname label : String) : String :=
  "last_over_time(" ++ metricname ++ "\x7b" ++ label ++ "\x7d[1h])"

/-- The bare query expression `metricname{label}` that the spec examples
show: what `get_prom_metric` would send if it did not wrap the query. -/
def bareQuery (metricname label : String) : String :=
  metricname ++ "\x7b" ++ label ++ "\x7d"

/-- app.py lines 30-41.  The backend is a function from the query string to
the response.  On status 200 with exactly one result row the value string
is parsed (`float`, raising `valueError` if unparseable) and rounded
(`str(round(...))`); with zero or several rows the marker `"ERR"` is
returned.  On any other status the code evaluates
`response.status_code + ": " + response.reason`, an `int + str`
concatenation, which raises `typeError` before anything is printed or
returned. -/
def get_prom_metric (metricname label : String) (backend : String → PromResponse) :
    Except PyError String :=
  let response := backend (promQuery metricname label)
  if response.status_code = 200 then
    match response.result with
    | [row] =>
        match parseFloat row.value.2 with
        | some q => .ok (toString (pyRound q))
        | none => .error .valueError
    | _ => .ok "ERR"
  else
    .error .typeError

/-- app.py lines 43-52: same shape as `get_prom_metric` but the query is
sent verbatim and the single-row value string is returned unparsed. -/
def get_prom_metric_from_query (query : String) (backend : String → PromResponse) :
    Except PyError String :=
  let response := backend query
  if response.status_code = 200 then
    match response.result with
    | [row] => .ok row.value.2
    | _ => .ok "ERR"
  else
    .error .typeError

/-- app.py lines 264-268: the first refresh-loop field.  The office
temperature is fetched and the display receives the fetched string with a
degree sign appended, at fixed coordinates (150, 50).  An exception from
the fetch propagates (there is no try/except around this call). -/
def officeTempDisplayed (backend : String → PromResponse) :
    Except PyError (String × ℕ × ℕ) :=
  match get_prom_metric "thermometer_temperature_celsius" "room=\x27Office\x27" backend with
  | .ok s => .ok (s ++ "º", 150, 50)
  | .error e => .error e

/-- Python `"%.1f"`-style fixed one-decimal formatting, as used by
`format("{value:.1f} {unit}/s")` in app.py line 91: round the value to
tenths (ties to even, as CPython does), print one decimal digit, and keep
the sign of the original value (CPython prints `-0.0` for tiny negative
values). -/
def fmtFixed1 (q : ℚ) : String :=
  let n := pyRound (q * 10)
  let m := n.natAbs
  (if q < 0 then "-" else "") ++ toString (m / 10) ++ "." ++ toString (m % 10)

/-- The rate-calculator state: the module-level globals
`old_downloaded_bytes`, `old_uploaded_bytes`, `last_time` (app.py
lines 54-60; `last_time` is in nanoseconds, from `time.time_ns()`). -/
structure RateState where
  old_downloaded_bytes : ℤ
  old_uploaded_bytes : ℤ
  last_time : ℤ
deriving DecidableEq

/-- An Opnsense router-API response as `network_speed` consumes it:
`status_code`, `reason`, and the wan interface byte counters from the
JSON body. -/
structure OpnsResponse where
  status_code : ℤ
  reason : String
  bytes_received : ℤ
  bytes_transmitted : ℤ
deriving DecidableEq

/-- Seconds elapsed between two `time.time_ns()` samples
(`delta_time / 1000000000`, app.py lines 71 and 87-88). -/
def elapsedSeconds (last_time now_time : ℤ) : ℚ :=
  ((now_time - last_time : ℤ) : ℚ) / 1000000000

/-- The `bitmath.Byte(x).Mib` conversion used on app.py line 91: a byte
count becomes mebibits by multiplying by 8 bits per byte and dividing by
2^20. -/
def bytesToMibValue (x : ℚ) : ℚ :=
  x * 8 / 1048576

/-- Download rate in mebibits per second as `network_speed` computes it
(app.py lines 79 and 87): delta bytes over elapsed seconds, converted to
mebibits. -/
def downloadMib (r : OpnsResponse) (st : RateState) (now_time : ℤ) : ℚ :=
  bytesToMibValue (((r.bytes_received - st.old_downloaded_bytes : ℤ) : ℚ) /
    elapsedSeconds st.last_time now_time)

/-- Upload rate in mebibits per second (app.py lines 80 and 88). -/
def uploadMib (r : OpnsResponse) (st : RateState) (now_time : ℤ) : ℚ :=
  bytesToMibValue (((r.bytes_transmitted - st.old_uploaded_bytes : ℤ) : ℚ) /
    elapsedSeconds st.last_time now_time)

/-- app.py lines 62-93.  On status 200 the deltas against the stored
counters are divided by the elapsed time and formatted as
`"<v> Mib/s"` with one decimal digit, and the state is updated to the new
counters and timestamp; a zero elapsed time is a float division by zero.
On any other status the code evaluates `r.status_code + ": " + r.reason`,
an `int + str` concatenation, which raises `typeError` before the
function can return. -/
def network_speed (r : OpnsResponse) (st : RateState) (now_time : ℤ) :
    Except PyError ((String × String) × RateState) :=
  if r.status_code = 200 then
    if now_time - st.last_time = 0 then .error .zeroDivisionError
    else
      .ok ((fmtFixed1 (downloadMib r st now_time) ++ " Mib/s",
            fmtFixed1 (uploadMib r st now_time) ++ " Mib/s"),
           ⟨r.bytes_received, r.bytes_transmitted, now_time⟩)
  else
    .error .typeError

/-- Right alignment to a field of `n` characters, as in the f-string
format specifier used on app.py lines 360 and 365. -/
def padLeftTo (n : ℕ) (s : String) : String :=
  String.mk (List.replicate (n - s.length) ' ') ++ s

/-- app.py lines 359-369: the loop section that calls `network_speed`,
indexes the result with `speed[0]` and `speed[1]`, and hands the two
formatted lines to the display at (240, 260) and (240, 290).  An
exception from `network_speed` propagates (no try/except in the loop). -/
def displaySpeeds (r : OpnsResponse) (st : RateState) (now_time : ℤ) :
    Except PyError ((String × ℕ × ℕ) × (String × ℕ × ℕ) × RateState) :=
  match network_speed r st now_time with
  | .ok (speed, st2) =>
      .ok (("DL: " ++ padLeftTo 12 speed.1, 240, 260),
           ("UL: " ++ padLeftTo 12 speed.2, 240, 290), st2)
  | .error e => .error e

/-- Observable events of one run of the `__main__` refresh loop:
`fetch i` is the i-th backend/router request of an iteration, `display i`
the i-th display-sink call, `sleepFive` the `time.sleep(5)` at the end of
an iteration, `raised e` an uncaught exception propagating out of the
loop body (there is no try/except around the fetches, so it terminates
the process), and `close` the final `lcd_comm.closeSerial()`. -/
inductive Ev where
  | fetch (i : ℕ)
  | display (i : ℕ)
  | sleepFive
  | raised (e : PyError)
  | close
deriving DecidableEq

/-- The event sequence of one complete loop-body iteration (app.py
lines 264-371), in source order: seven temperature fields, four power
fields, the purchased-energy field, the solar field (bar and text), the
network-speed section (one router fetch, two display lines), then the
five-second sleep. -/
def iterationEvents : List Ev :=
  [.fetch 0, .display 0,
   .fetch 1, .display 1,
   .fetch 2, .display 2,
   .fetch 3, .display 3,
   .fetch 4, .display 4,
   .fetch 5, .display 5,
   .fetch 6, .display 6,
   .fetch 7, .display 7,
   .fetch 8, .display 8,
   .fetch 9, .display 9,
   .fetch 10, .display 10,
   .fetch 11, .display 11,
   .fetch 12, .display 12, .display 13,
   .fetch 13, .display 14, .display 15,
   .sleepFive]

/-- Outcome of one execution of the loop body, determined by the backend
and router responses of that iteration: either every statement succeeds
and the iteration completes, or some statement raises exception `e` after
the first `j` events of `iterationEvents` (reachable raises: TypeError on
a non-200 backend or router response, ValueError on an unparseable value,
per app.py lines 36, 41 and 93). -/
inductive IterOutcome where
  | completes
  | raisesAt (e : PyError) (j : ℕ)
deriving DecidableEq

/-- The refresh loop `while not stop: ... / lcd_comm.closeSerial()`
(app.py lines 263-374).  The signal handler (lines 108-110) only sets the
`stop` flag; `sigAt` is the index of the iteration during which the
signal is delivered, so the flag is first observed true at the top of
iteration `sigAt + 1`.  `sched` gives each iteration's outcome (a
function of the responses that iteration receives): a completing
iteration contributes its full event list, while a raising iteration
stops after the events already executed — the exception propagates out of
the `while` (no try/except encloses the body), so line 374's
`closeSerial()` is skipped and the process dies.  `fuel` bounds the
recursion; every run the claims quantify over has enough fuel. -/
def loopRun : ℕ → ℕ → ℕ → (ℕ → IterOutcome) → List Ev
  | 0, _, _, _ => []
  | fuel + 1, sigAt, k, sched =>
      if sigAt < k then [Ev.close]
      else
        match sched k with
        | .completes => iterationEvents ++ loopRun fuel sigAt (k + 1) sched
        | .raisesAt e j => iterationEvents.take j ++ [Ev.raised e]

/-- The schedule of a run in which no loop-body statement ever raises. -/
def schedAllOk : ℕ → IterOutcome :=
  fun _ => .completes

/-- The schedule of a run in which iteration 0's first fetch raises
TypeError — exactly what a 503 backend response to the office-temperature
query produces (cf. `get_prom_metric_http_error_raises`): one event
(the fetch) happens, then the exception aborts the body. -/
def schedFirstFetchRaises : ℕ → IterOutcome :=
  fun _ => .raisesAt .typeError 1

/-- The schedule of a run whose iteration 0 completes and whose
iteration 1 raises TypeError at its first fetch. -/
def schedSecondIterRaises : ℕ → IterOutcome :=
  fun k => if k = 0 then .completes else .raisesAt .typeError 1

/-- Observable startup actions of `__main__` before the loop (app.py
lines 119-263): driver selection, the error path for an unknown
revision, display initialization, and loop entry. -/
inductive StartupAct where
  | selectRevA
  | selectRevB
  | selectSimu
  | printUnknownRevision
  | exitProcess
  | reset
  | initializeComm
  | setBrightness
  | setOrient
  | enterLoop
deriving DecidableEq

/-- app.py lines 119-263: the revision branching.  `"A"`, `"B"` and
`"SIMU"` each construct a driver and fall through to `Reset`,
`InitializeComm`, `SetBrightness`, `SetOrientation` and the loop; any
other string prints an error and exits (`sys.exit(0)`, with `os._exit(0)`
as fallback) before any display call. -/
def startupActs (revision : String) : List StartupAct :=
  if revision = "A" then
    [.selectRevA, .reset, .initializeComm, .setBrightness, .setOrient, .enterLoop]
  else if revision = "B" then
    [.selectRevB, .reset, .initializeComm, .setBrightness, .setOrient, .enterLoop]
  else if revision = "SIMU" then
    [.selectSimu, .reset, .initializeComm, .setBrightness, .setOrient, .enterLoop]
  else
    [.printUnknownRevision, .exitProcess]

/-- Mebibits to mebibytes: the unit conversion relating the `Mib/s`
string the code displays to the `MiB/s` figure the spec quotes. -/
def mibToMiB (x : ℚ) : ℚ :=
  x / 8

/-- The backend used in the end-to-end scenario of the spec: every query
is answered with HTTP 200 and the single result row value `"21.4"`. -/
def backend214 : String → PromResponse :=
  fun _ => ⟨200, "OK", [⟨(0, "21.4")⟩]⟩

/-- A backend that answers every query with HTTP 503. -/
def backend503 : String → PromResponse :=
  fun _ => ⟨503, "Service Unavailable", []⟩

/-- A backend that answers HTTP 200 with a single result row whose value
string is not a float literal. -/
def backendBadValue : String → PromResponse :=
  fun _ => ⟨200, "OK", [⟨(0, "abc")⟩]⟩

/-- A backend that answers HTTP 200 with an empty result array. -/
def backendEmpty : String → PromResponse :=
  fun _ => ⟨200, "OK", []⟩

/-- A backend that answers HTTP 200 with two result rows. -/
def backendTwoRows : String → PromResponse :=
  fun _ => ⟨200, "OK", [⟨(0, "1.5")⟩, ⟨(0, "2.5")⟩]⟩

/-- A backend that agrees with `backend214` on the wrapped office query and
answers HTTP 500 on every other query, in particular on the bare
(unwrapped) expression. -/
def backendWrappedOnly : String → PromResponse :=
  fun q =>
    if q = promQuery "thermometer_temperature_celsius" "room=\x27Office\x27" then
      ⟨200, "OK", [⟨(0, "21.4")⟩]⟩
    else
      ⟨500, "Internal Server Error", []⟩

theorem close_not_mem_iteration : Ev.close ∉ iterationEvents := by
  decide

theorem close_not_mem_repeat (n : ℕ) :
    Ev.close ∉ (List.replicate n iterationEvents).flatten := by
  induction n with
  | zero => simp
  | succ k ih =>
      rw [List.replicate_succ, List.flatten_cons]
      intro h
      rcases List.mem_append.mp h with h1 | h2
      · exact close_not_mem_iteration h1
      · exact ih h2

theorem loopRun_ok_spec (fuel : ℕ) : ∀ (sigAt k : ℕ) (sched : ℕ → IterOutcome),
    (∀ i, sched i = .completes) → k ≤ sigAt + 1 → sigAt + 2 - k ≤ fuel →
    loopRun fuel sigAt k sched =
      (List.replicate (sigAt + 1 - k) iterationEvents).flatten ++ [Ev.close] := by
  induction fuel with
  | zero => intro sigAt k sched hok hk hf; omega
  | succ f ih =>
      intro sigAt k sched hok hk hf
      rw [loopRun]
      by_cases h : sigAt < k
      · rw [if_pos h]
        have h0 : sigAt + 1 - k = 0 := by omega
        rw [h0]
        simp
      · rw [if_neg h, hok k]
        show iterationEvents ++ loopRun f sigAt (k + 1) sched = _
        rw [ih sigAt (k + 1) sched hok (by omega) (by omega)]
        have h1 : sigAt + 1 - k = (sigAt + 1 - (k + 1)) + 1 := by omega
        rw [h1, List.replicate_succ, List.flatten_cons, List.append_assoc]

theorem close_not_mem_loopRun_raise (fuel : ℕ) : ∀ (sigAt k m : ℕ)
    (sched : ℕ → IterOutcome) (e : PyError) (j : ℕ),
    k ≤ m → m ≤ sigAt → (∀ i, k ≤ i → i < m → sched i = .completes) →
    sched m = .raisesAt e j →
    Ev.close ∉ loopRun fuel sigAt k sched := by
  induction fuel with
  | zero =>
      intro sigAt k m sched e j hkm hms hcomp hraise
      rw [loopRun]
      simp
  | succ f ih =>
      intro sigAt k m sched e j hkm hms hcomp hraise
      rw [loopRun, if_neg (by omega : ¬ sigAt < k)]
      by_cases hk : k = m
      · subst hk
        rw [hraise]
        show Ev.close ∉ iterationEvents.take j ++ [Ev.raised e]
        intro h
        rcases List.mem_append.mp h with h1 | h2
        · exact close_not_mem_iteration (List.take_subset j iterationEvents h1)
        · exact Ev.noConfusion (List.mem_singleton.mp h2)
      · rw [hcomp k (le_refl k) (by omega)]
        show Ev.close ∉ iterationEvents ++ loopRun f sigAt (k + 1) sched
        intro h
        rcases List.mem_append.mp h with h1 | h2
        · exact close_not_mem_iteration h1
        · exact ih sigAt (k + 1) m sched e j (by omega) hms
            (fun i hi1 hi2 => hcomp i (by omega) hi2) hraise h2

/-- C1: the spec claims that on a non-success backend response the fetcher
returns the marker "ERR", logs the error, and the loop continues.  The code
instead evaluates `response.status_code + ": " + response.reason`, an
`int + str` concatenation that raises TypeError, the function returns
nothing, and the uncaught exception aborts the loop iteration: evaluated on
an HTTP 503 response, the fetcher raises rather than producing "ERR", and
the office-temperature display step propagates the exception. -/
theorem get_prom_metric_http_error_raises :
    get_prom_metric "thermometer_temperature_celsius" "room=\x27Office\x27" backend503 =
      .error .typeError ∧
    get_prom_metric "thermometer_temperature_celsius" "room=\x27Office\x27" backend503 ≠
      .ok "ERR" ∧
    officeTempDisplayed backend503 = .error .typeError := by
  refine ⟨by with_unfolding_all rfl, ?_, by with_unfolding_all rfl⟩
  have h : get_prom_metric "thermometer_temperature_celsius" "room=\x27Office\x27" backend503 =
      .error .typeError := by with_unfolding_all rfl
  rw [h]
  intro hc
  exact Except.noConfusion hc

/-- C2: for every HTTP-200 backend response with exactly one result row
whose value string parses as a float, the fetcher returns the string form
of the value rounded to the nearest integer and raises nothing; in the
end-to-end scenario a value of "21.4" yields the displayed string "21º" at
the fixed coordinates (150, 50). -/
theorem get_prom_metric_single_result_rounds :
    (∀ (backend : String → PromResponse) (m l : String) (row : PromRow) (q : ℚ),
        (backend (promQuery m l)).status_code = 200 →
        (backend (promQuery m l)).result = [row] →
        parseFloat row.value.2 = some q →
        get_prom_metric m l backend = .ok (toString (pyRound q))) ∧
    officeTempDisplayed backend214 = .ok ("21º", 150, 50) := by
  constructor
  · intro backend m l row q h200 hres hq
    simp only [get_prom_metric, h200, hres, hq, if_true]
  · with_unfolding_all rfl

theorem get_prom_metric_single_result_rounds_witness :
    parseFloat "21.4" = some (107 / 5) ∧
    get_prom_metric "thermometer_temperature_celsius" "room=\x27Office\x27" backend214 =
      .ok (toString (pyRound (107 / 5))) :=
  ⟨by with_unfolding_all rfl,
   get_prom_metric_single_result_rounds.1 backend214 "thermometer_temperature_celsius"
     "room=\x27Office\x27" ⟨(0, "21.4")⟩ (107 / 5) rfl rfl (by with_unfolding_all rfl)⟩

/-- C3 counterexample: on an HTTP-200 response whose single result value is
the non-numeric string "abc", the fetcher does not return the marker "ERR"
as claimed; the `float()` call raises ValueError, which nothing catches. -/
theorem get_prom_metric_unparseable_no_marker :
    get_prom_metric "thermometer_temperature_celsius" "room=\x27Office\x27" backendBadValue =
      .error .valueError ∧
    get_prom_metric "thermometer_temperature_celsius" "room=\x27Office\x27" backendBadValue ≠
      .ok "ERR" := by
  have h : get_prom_metric "thermometer_temperature_celsius" "room=\x27Office\x27" backendBadValue =
      .error .valueError := by with_unfolding_all rfl
  refine ⟨h, ?_⟩
  rw [h]
  intro hc
  exact Except.noConfusion hc

/-- C3 amended: for every HTTP-200 backend response whose single result
value is not parseable as a float, the fetcher raises ValueError (there is
no try/except around the `float()` call); the marker "ERR" is produced only
for a zero or multiple result-row count, never for a parse failure. -/
theorem get_prom_metric_unparseable_raises
    (backend : String → PromResponse) (m l : String) (row : PromRow)
    (h200 : (backend (promQuery m l)).status_code = 200)
    (hres : (backend (promQuery m l)).result = [row])
    (hq : parseFloat row.value.2 = none) :
    get_prom_metric m l backend = .error .valueError := by
  simp only [get_prom_metric, h200, hres, hq, if_true]

theorem get_prom_metric_unparseable_raises_witness :
    parseFloat "abc" = none ∧
    get_prom_metric "thermometer_temperature_celsius" "room=\x27Office\x27" backendBadValue =
      .error .valueError :=
  ⟨by with_unfolding_all rfl,
   get_prom_metric_unparseable_raises backendBadValue "thermometer_temperature_celsius"
     "room=\x27Office\x27" ⟨(0, "abc")⟩ rfl rfl (by with_unfolding_all rfl)⟩

/-- C4: for every HTTP-200 backend response whose `data.result` array holds
zero rows or more than one row, both fetchers return the marker "ERR" and
raise nothing. -/
theorem fetchers_err_on_result_count :
    (∀ (backend : String → PromResponse) (m l : String),
        (backend (promQuery m l)).status_code = 200 →
        (backend (promQuery m l)).result.length ≠ 1 →
        get_prom_metric m l backend = .ok "ERR") ∧
    (∀ (backend : String → PromResponse) (q : String),
        (backend q).status_code = 200 →
        (backend q).result.length ≠ 1 →
        get_prom_metric_from_query q backend = .ok "ERR") := by
  constructor
  · intro backend m l h200 hlen
    simp only [get_prom_metric, h200, if_true]
    cases hr : (backend (promQuery m l)).result with
    | nil => rfl
    | cons a t =>
        cases t with
        | nil => exact absurd (by rw [hr]; rfl) hlen
        | cons b t2 => rfl
  · intro backend q h200 hlen
    simp only [get_prom_metric_from_query, h200, if_true]
    cases hr : (backend q).result with
    | nil => rfl
    | cons a t =>
        cases t with
        | nil => exact absurd (by rw [hr]; rfl) hlen
        | cons b t2 => rfl

theorem fetchers_err_on_result_count_witness :
    get_prom_metric "thermometer_temperature_celsius" "room=\x27Office\x27" backendEmpty =
      .ok "ERR" ∧
    get_prom_metric_from_query "solaredge_api_purchased_energy/1000" backendTwoRows =
      .ok "ERR" :=
  ⟨fetchers_err_on_result_count.1 backendEmpty "thermometer_temperature_celsius"
     "room=\x27Office\x27" rfl (by decide),
   fetchers_err_on_result_count.2 backendTwoRows "solaredge_api_purchased_energy/1000"
     rfl (by decide)⟩

/-- C9: the fetcher never sends the bare expression `metricname{label}`:
the query it sends is that expression wrapped as
`last_over_time(metricname{label}[1h])`, a strictly different string, and
the fetcher's result depends on the backend only at that wrapped query. -/
theorem prom_query_wrapped :
    (∀ m l : String, promQuery m l = "last_over_time(" ++ bareQuery m l ++ "[1h])") ∧
    (∀ m l : String, promQuery m l ≠ bareQuery m l) ∧
    (∀ (m l : String) (b1 b2 : String → PromResponse),
        b1 (promQuery m l) = b2 (promQuery m l) →
        get_prom_metric m l b1 = get_prom_metric m l b2) := by
  refine ⟨?_, ?_, ?_⟩
  · intro m l
    have hsplit : ("\x7d[1h])" : String) = "\x7d" ++ "[1h])" := rfl
    simp only [promQuery, bareQuery, hsplit, String.append_assoc]
  · intro m l h
    have hlen := congrArg String.length h
    simp only [promQuery, bareQuery, String.length_append] at hlen
    have h1 : ("last_over_time(" : String).length = 15 := rfl
    have h2 : ("\x7b" : String).length = 1 := rfl
    have h3 : ("\x7d[1h])" : String).length = 6 := rfl
    have h4 : ("\x7d" : String).length = 1 := rfl
    omega
  · intro m l b1 b2 h
    simp only [get_prom_metric, h]

/-- C5: the rate calculator computes
`(current_bytes - previous_bytes) / elapsed_seconds` and renders it in
human units (mebibits per second) with one decimal digit; a zero delta
over one second yields the zero rate, and a delta of 1048576 bytes over
one second yields "8.0 Mib/s", which is exactly 1.0 MiB/s expressed in
mebibits. -/
theorem network_speed_rate_formula :
    (∀ (r : OpnsResponse) (st : RateState) (now_time : ℤ),
        r.status_code = 200 →
        now_time - st.last_time ≠ 0 →
        network_speed r st now_time =
          .ok ((fmtFixed1 (bytesToMibValue
                  (((r.bytes_received - st.old_downloaded_bytes : ℤ) : ℚ) /
                    elapsedSeconds st.last_time now_time)) ++ " Mib/s",
                fmtFixed1 (bytesToMibValue
                  (((r.bytes_transmitted - st.old_uploaded_bytes : ℤ) : ℚ) /
                    elapsedSeconds st.last_time now_time)) ++ " Mib/s"),
               ⟨r.bytes_received, r.bytes_transmitted, now_time⟩)) ∧
    network_speed ⟨200, "OK", 0, 0⟩ ⟨0, 0, 0⟩ 1000000000 =
      .ok (("0.0 Mib/s", "0.0 Mib/s"), ⟨0, 0, 1000000000⟩) ∧
    network_speed ⟨200, "OK", 1048576, 0⟩ ⟨0, 0, 0⟩ 1000000000 =
      .ok (("8.0 Mib/s", "0.0 Mib/s"), ⟨1048576, 0, 1000000000⟩) ∧
    mibToMiB 8 = 1 := by
  refine ⟨?_, ?_, ?_, ?_⟩
  · intro r st now_time h200 hdt
    unfold network_speed downloadMib uploadMib
    rw [if_pos h200, if_neg hdt]
  · with_unfolding_all rfl
  · with_unfolding_all rfl
  · unfold mibToMiB
    norm_num

theorem network_speed_rate_formula_witness :
    ((⟨200, "OK", 1048576, 0⟩ : OpnsResponse).status_code = 200) ∧
    ((1000000000 : ℤ) - (⟨0, 0, 0⟩ : RateState).last_time ≠ 0) ∧
    network_speed ⟨200, "OK", 1048576, 0⟩ ⟨0, 0, 0⟩ 1000000000 =
      .ok ((fmtFixed1 (bytesToMibValue (((1048576 - 0 : ℤ) : ℚ) / elapsedSeconds 0 1000000000)) ++ " Mib/s",
            fmtFixed1 (bytesToMibValue (((0 - 0 : ℤ) : ℚ) / elapsedSeconds 0 1000000000)) ++ " Mib/s"),
           ⟨1048576, 0, 1000000000⟩) :=
  ⟨rfl, by decide,
   network_speed_rate_formula.1 ⟨200, "OK", 1048576, 0⟩ ⟨0, 0, 0⟩ 1000000000 rfl (by decide)⟩

/-- C6 counterexample: with a previous download counter of 2097152 bytes
and a current counter of 0 (a counter reset) over one second, the rate
calculator does not clamp: the delta is negative, the computed rate is the
negative value -16 Mib/s, and the returned string is "-16.0 Mib/s", not a
zero rate. -/
theorem network_speed_counter_reset_not_clamped :
    network_speed ⟨200, "OK", 0, 0⟩ ⟨2097152, 0, 0⟩ 1000000000 =
      .ok (("-16.0 Mib/s", "0.0 Mib/s"), ⟨0, 0, 1000000000⟩) ∧
    downloadMib ⟨200, "OK", 0, 0⟩ ⟨2097152, 0, 0⟩ 1000000000 < 0 ∧
    ("-16.0 Mib/s" : String) ≠ "0.0 Mib/s" := by
  refine ⟨by with_unfolding_all rfl, by with_unfolding_all decide, by decide⟩

/-- C6 amended: the rate calculator does not handle counter resets: for
every pair of successive samples in which the current download counter is
smaller than the previous one, the computed download rate is negative and
the returned download string carries a leading minus sign; the delta is
not clamped to zero. -/
theorem network_speed_counter_reset_negative_rate
    (r : OpnsResponse) (st : RateState) (now_time : ℤ)
    (h200 : r.status_code = 200)
    (hlt : st.last_time < now_time)
    (hreset : r.bytes_received < st.old_downloaded_bytes) :
    downloadMib r st now_time < 0 ∧
    ∃ rest, network_speed r st now_time =
      .ok (("-" ++ rest, fmtFixed1 (uploadMib r st now_time) ++ " Mib/s"),
           ⟨r.bytes_received, r.bytes_transmitted, now_time⟩) := by
  have hdd : ((r.bytes_received - st.old_downloaded_bytes : ℤ) : ℚ) < 0 := by
    exact_mod_cast (by omega : r.bytes_received - st.old_downloaded_bytes < (0 : ℤ))
  have hes : 0 < elapsedSeconds st.last_time now_time := by
    unfold elapsedSeconds
    apply div_pos
    · exact_mod_cast (by omega : (0 : ℤ) < now_time - st.last_time)
    · norm_num
  have hneg : downloadMib r st now_time < 0 := by
    unfold downloadMib bytesToMibValue
    apply div_neg_of_neg_of_pos
    · exact mul_neg_of_neg_of_pos (div_neg_of_neg_of_pos hdd hes) (by norm_num)
    · norm_num
  refine ⟨hneg, ?_⟩
  have hdt : now_time - st.last_time ≠ 0 := by omega
  unfold network_speed
  rw [if_pos h200, if_neg hdt]
  have hfmt : fmtFixed1 (downloadMib r st now_time) =
      "-" ++ (toString ((pyRound (downloadMib r st now_time * 10)).natAbs / 10) ++ "." ++
              toString ((pyRound (downloadMib r st now_time * 10)).natAbs % 10)) := by
    unfold fmtFixed1
    rw [if_pos hneg]
    simp [String.append_assoc]
  refine ⟨(toString ((pyRound (downloadMib r st now_time * 10)).natAbs / 10) ++ "." ++
          toString ((pyRound (downloadMib r st now_time * 10)).natAbs % 10)) ++ " Mib/s", ?_⟩
  rw [hfmt, String.append_assoc]

theorem network_speed_counter_reset_negative_rate_witness :
    ((⟨200, "OK", 100, 0⟩ : OpnsResponse).status_code = 200) ∧
    ((⟨1048676, 0, 0⟩ : RateState).last_time < (2000000000 : ℤ)) ∧
    ((⟨200, "OK", 100, 0⟩ : OpnsResponse).bytes_received <
      (⟨1048676, 0, 0⟩ : RateState).old_downloaded_bytes) ∧
    (downloadMib ⟨200, "OK", 100, 0⟩ ⟨1048676, 0, 0⟩ 2000000000 < 0 ∧
     ∃ rest, network_speed ⟨200, "OK", 100, 0⟩ ⟨1048676, 0, 0⟩ 2000000000 =
       .ok (("-" ++ rest, fmtFixed1 (uploadMib ⟨200, "OK", 100, 0⟩ ⟨1048676, 0, 0⟩ 2000000000) ++ " Mib/s"),
            ⟨100, 0, 2000000000⟩)) :=
  ⟨rfl, by decide, by decide,
   network_speed_counter_reset_negative_rate ⟨200, "OK", 100, 0⟩ ⟨1048676, 0, 0⟩ 2000000000
     rfl (by decide) (by decide)⟩

/-- C7 counterexample: the claim that a signal set mid-iteration always
leads to the iteration completing and exactly one `closeSerial` is false
on a reachable run.  Concrete input: the signal arrives during
iteration 0, and that iteration's first fetch receives an HTTP 503
backend response, so `get_prom_metric` raises TypeError (the reachable
raise proved in `get_prom_metric_http_error_raises` is the same code
path).  The run's whole trace is the one fetch and the uncaught
exception: the iteration does not complete and `closeSerial` is invoked
zero times, not once. -/
theorem loop_raise_skips_close :
    loopRun 5 0 0 schedFirstFetchRaises = [Ev.fetch 0, Ev.raised .typeError] ∧
    (loopRun 5 0 0 schedFirstFetchRaises).count Ev.close = 0 := by
  constructor <;> decide

/-- C7 amended: if the stop flag is set by a signal while iteration
`sigAt` is in progress and no loop-body statement raises during the run,
the trace is exactly `sigAt + 1` complete iterations followed by the
single `closeSerial` call — the interrupted iteration runs to completion,
no fetch follows the close, and the close happens exactly once.  If
instead some iteration up to `sigAt` raises (reachable per C1, C3 and
C10), the exception propagates out of the loop and `closeSerial` is never
invoked. -/
theorem loop_stop_flag_shutdown :
    (∀ (sigAt fuel : ℕ) (sched : ℕ → IterOutcome),
        (∀ i, sched i = .completes) → sigAt + 2 ≤ fuel →
        ∃ pre, loopRun fuel sigAt 0 sched = pre ++ [Ev.close] ∧
          pre = (List.replicate (sigAt + 1) iterationEvents).flatten ∧
          Ev.close ∉ pre ∧
          (loopRun fuel sigAt 0 sched).count Ev.close = 1) ∧
    (∀ (sigAt fuel m : ℕ) (sched : ℕ → IterOutcome) (e : PyError) (j : ℕ),
        m ≤ sigAt → (∀ i, i < m → sched i = .completes) →
        sched m = .raisesAt e j →
        Ev.close ∉ loopRun fuel sigAt 0 sched) := by
  constructor
  · intro sigAt fuel sched hok h
    have hrun := loopRun_ok_spec fuel sigAt 0 sched hok (by omega) (by omega)
    simp only [Nat.sub_zero] at hrun
    refine ⟨(List.replicate (sigAt + 1) iterationEvents).flatten, hrun, rfl,
      close_not_mem_repeat _, ?_⟩
    rw [hrun, List.count_append,
      List.count_eq_zero_of_not_mem (close_not_mem_repeat (sigAt + 1))]
    rfl
  · intro sigAt fuel m sched e j hms hcomp hraise
    exact close_not_mem_loopRun_raise fuel sigAt 0 m sched e j (Nat.zero_le m) hms
      (fun i hi1 hi2 => hcomp i hi2) hraise

theorem loop_stop_flag_shutdown_witness :
    (∃ pre, loopRun 5 1 0 schedAllOk = pre ++ [Ev.close] ∧
      pre = (List.replicate 2 iterationEvents).flatten ∧
      Ev.close ∉ pre ∧
      (loopRun 5 1 0 schedAllOk).count Ev.close = 1) ∧
    Ev.close ∉ loopRun 5 1 0 schedSecondIterRaises :=
  ⟨loop_stop_flag_shutdown.1 1 5 schedAllOk (fun _ => rfl) (by decide),
   loop_stop_flag_shutdown.2 1 5 1 schedSecondIterRaises .typeError 1 (by decide)
     (fun i hi => by
       have h0 : i = 0 := by omega
       rw [h0]
       rfl)
     rfl⟩

/-- C8: if the configured display hardware revision is none of "A", "B"
and "SIMU", the startup actions are exactly the unknown-revision error
message followed by process exit: the display is never reset or
initialized and the refresh loop is never entered. -/
theorem unknown_revision_exits_early (revision : String)
    (hA : revision ≠ "A") (hB : revision ≠ "B") (hS : revision ≠ "SIMU") :
    startupActs revision = [.printUnknownRevision, .exitProcess] ∧
    StartupAct.reset ∉ startupActs revision ∧
    StartupAct.initializeComm ∉ startupActs revision ∧
    StartupAct.enterLoop ∉ startupActs revision := by
  have h : startupActs revision = [.printUnknownRevision, .exitProcess] := by
    unfold startupActs
    rw [if_neg hA, if_neg hB, if_neg hS]
  refine ⟨h, ?_, ?_, ?_⟩ <;> rw [h] <;> decide

theorem unknown_revision_exits_early_witness :
    ("C" : String) ≠ "A" ∧ ("C" : String) ≠ "B" ∧ ("C" : String) ≠ "SIMU" ∧
    (startupActs "C" = [.printUnknownRevision, .exitProcess] ∧
     StartupAct.reset ∉ startupActs "C" ∧
     StartupAct.initializeComm ∉ startupActs "C" ∧
     StartupAct.enterLoop ∉ startupActs "C") :=
  ⟨by decide, by decide, by decide,
   unknown_revision_exits_early "C" (by decide) (by decide) (by decide)⟩

/-- C10: for every router-API response with a non-200 status,
`network_speed` evaluates `r.status_code + ": " + r.reason`, an `int + str`
concatenation that raises TypeError instead of returning a value, and the
loop section that consumes the result as a two-element tuple propagates the
exception: any non-200 router response aborts the loop iteration. -/
theorem network_speed_non200_aborts :
    (∀ (r : OpnsResponse) (st : RateState) (now_time : ℤ),
        r.status_code ≠ 200 → network_speed r st now_time = .error .typeError) ∧
    (∀ (r : OpnsResponse) (st : RateState) (now_time : ℤ),
        r.status_code ≠ 200 → displaySpeeds r st now_time = .error .typeError) := by
  constructor
  · intro r st now_time h
    unfold network_speed
    rw [if_neg h]
  · intro r st now_time h
    unfold displaySpeeds network_speed
    rw [if_neg h]

theorem network_speed_non200_aborts_witness :
    ((⟨503, "Service Unavailable", 0, 0⟩ : OpnsResponse).status_code ≠ 200) ∧
    network_speed ⟨503, "Service Unavailable", 0, 0⟩ ⟨0, 0, 0⟩ 1000000000 =
      .error .typeError ∧
    displaySpeeds ⟨503, "Service Unavailable", 0, 0⟩ ⟨0, 0, 0⟩ 1000000000 =
      .error .typeError :=
  ⟨by decide,
   network_speed_non200_aborts.1 ⟨503, "Service Unavailable", 0, 0⟩ ⟨0, 0, 0⟩ 1000000000 (by decide),
   network_speed_non200_aborts.2 ⟨503, "Service Unavailable", 0, 0⟩ ⟨0, 0, 0⟩ 1000000000 (by decide)⟩

theorem prom_query_wrapped_witness :
    backend214 (promQuery "thermometer_temperature_celsius" "room=\x27Office\x27") =
      backendWrappedOnly (promQuery "thermometer_temperature_celsius" "room=\x27Office\x27") ∧
    get_prom_metric "thermometer_temperature_celsius" "room=\x27Office\x27" backend214 =
      get_prom_metric "thermometer_temperature_celsius" "room=\x27Office\x27" backendWrappedOnly :=
  ⟨by with_unfolding_all rfl,
   prom_query_wrapped.2.2 "thermometer_temperature_celsius" "room=\x27Office\x27"
     backend214 backendWrappedOnly (by with_unfolding_all rfl)⟩
